import Mathlib

/-!
Shallow embedding of the cart/checkout core of `src/main.py` (FastAPI app
"The Herbal Chicken") together with the document shapes of `src/schemas.py`.

Modelling conventions:
* Python floats (prices, amounts) are modelled as exact rationals `ℚ`;
  `round(x, 2)` is modelled as decimal round-half-to-even to 2 places
  (`round2` below).
* Python `int` quantities are `ℤ` (the `CartUpdate.quantity` field carries
  no bound in the source).
* Python strings that undergo character-level operations (`.upper()`,
  slicing of the ObjectId hex) are `List Char`; other strings are `String`.
* The MongoDB handle `db` (from `database.py`, which is not part of the
  repository's source files) is modelled from the spec's collaborator
  contract: each collection is a list of documents in insertion order,
  `find_one` returns the first match, `update_one` patches the first match
  (optionally upserting), `create` appends.  The id returned by
  `create_document` for the order is abstracted as an explicit input
  `newOrderId` of `checkout`, and the fresh `ObjectId()` used for the
  tracking code as an explicit input `oid`.
* A raised `HTTPException` (and an uncaught `TypeError`) is an `Except.error`
  returned together with the store state at the moment of the raise.
* For a coupon document, `max_discount` distinguishes a missing key
  (`none`), a key stored as JSON null (`some none` — what
  `schemas.Coupon` produces by default), and a number (`some (some m)`):
  `dict.get(key, default)` only falls back to the default when the key is
  absent, and `float(None)` raises `TypeError`.
-/

/-- Snapshot of a product inside a cart (schemas.CartItem, as the raw dict
built in `add_to_cart`). -/
structure CartItemD where
  product_id : String
  title : String
  price : ℚ
  quantity : ℤ
  image_url : Option String
deriving DecidableEq, Repr

/-- A cart document (schemas.Cart): one per user, items plus an optional
coupon code. -/
structure CartD where
  user_id : String
  items : List CartItemD
  area_pincode : Option String
  coupon_code : Option String
deriving DecidableEq, Repr

/-- A catalog product, restricted to the fields `add_to_cart` reads. -/
structure ProductD where
  pid : String
  title : String
  price : ℚ
  image_url : Option String
deriving DecidableEq, Repr

/-- A coupon document (schemas.Coupon).  `max_discount`: `none` means the
key is absent from the document, `some none` a stored null, `some (some m)`
the number `m`. -/
structure CouponD where
  code : String
  discount_type : String
  value : ℚ
  min_amount : ℚ
  max_discount : Option (Option ℚ)
  active : Bool
deriving DecidableEq, Repr

/-- The payment block built in `checkout`. -/
structure PaymentD where
  method : String
  provider : Option String
  status : String
deriving DecidableEq, Repr

/-- The opaque address dict of `CheckoutPayload` (pass-through data). -/
abbrev AddressDict := List (String × String)

/-- The order document built in `checkout` (field for field). -/
structure OrderD where
  user_id : String
  items : List CartItemD
  total_amount : ℚ
  discount_amount : ℚ
  final_amount : ℚ
  address : AddressDict
  area_pincode : String
  payment : PaymentD
  status : String
  tracking_code : List Char
deriving DecidableEq, Repr

/-- The notification document built in `checkout`. -/
structure NotifD where
  user_id : String
  title : String
  message : String
  type : String
  read : Bool
deriving DecidableEq, Repr

/-- The document store: each collection in insertion order (modelled from
the spec's Document Store Adapter contract; `database.py` is not among the
source files). -/
structure DB where
  products : List ProductD
  carts : List CartD
  coupons : List CouponD
  orders : List OrderD
  notifications : List NotifD
deriving DecidableEq, Repr

/-- The errors the core raises: `notFound` (HTTP 404), `emptyCart`
(HTTP 400 "Cart is empty"), `typeErr` (an uncaught Python `TypeError`,
e.g. `float(None)`). -/
inductive Err where
  | notFound
  | emptyCart
  | typeErr
deriving DecidableEq, Repr

/-- `db["cart"].find_one({"user_id": user_id})`: first cart of the user. -/
def findCart (s : DB) (uid : String) : Option CartD :=
  s.carts.find? (fun c => c.user_id == uid)

/-- `db["product"].find_one({"_id": ObjectId(product_id)})` (ids opaque). -/
def findProduct (s : DB) (pid : String) : Option ProductD :=
  s.products.find? (fun p => p.pid == pid)

/-- `db["coupon"].find_one({"code": code, "active": True})`. -/
def findActiveCoupon (s : DB) (code : String) : Option CouponD :=
  s.coupons.find? (fun c => c.code == code && c.active)

/-- `update_one({"user_id": uid}, {"$set": …})` on the cart list: patch the
first matching document; `none` when no document matches. -/
def updateCarts (uid : String) (f : CartD → CartD) : List CartD → Option (List CartD)
  | [] => none
  | c :: rest =>
    if c.user_id == uid then some (f c :: rest)
    else (updateCarts uid f rest).map (fun l => c :: l)

/-- `db["cart"].update_one({"user_id": uid}, {"$set": …}, upsert?)`: patch
the first matching cart; if none matches, insert `upsertDoc` when given
(Mongo upsert builds the new document from the equality filter plus the
`$set` fields), else leave the store unchanged. -/
def update_one_cart (s : DB) (uid : String) (f : CartD → CartD)
    (upsertDoc : Option CartD) : DB :=
  match updateCarts uid f s.carts with
  | some cs => { s with carts := cs }
  | none =>
    match upsertDoc with
    | some d => { s with carts := s.carts ++ [d] }
    | none => s

/-- GET `/api/cart/{user_id}`: return the user's cart, creating an empty
one first when none exists. -/
def get_cart (s : DB) (uid : String) : DB × CartD :=
  match findCart s uid with
  | some c => (s, c)
  | none =>
    let c : CartD := ⟨uid, [], none, none⟩
    ({ s with carts := s.carts ++ [c] }, c)

/-- The `for it in items: if it["product_id"] == pid: it["quantity"] = qty;
found = True; break` loop of `add_to_cart`: set the quantity of the first
item with this product id; `none` when no item matches (`found` stays
false). -/
def setQtyFirst (pid : String) (qty : ℤ) : List CartItemD → Option (List CartItemD)
  | [] => none
  | it :: rest =>
    if it.product_id == pid then some ({ it with quantity := qty } :: rest)
    else (setQtyFirst pid qty rest).map (fun l => it :: l)

/-- POST `/api/cart/{user_id}/add` (`add_to_cart` in `src/main.py`):
404 when the product does not resolve; otherwise replace the quantity of
the existing item or append a fresh snapshot, then write the items back
with upsert. -/
def add_to_cart (s : DB) (uid pid : String) (qty : ℤ) : DB × Except Err Unit :=
  match findProduct s pid with
  | none => (s, .error .notFound)
  | some prod =>
    let items :=
      match findCart s uid with
      | some c => c.items
      | none => []
    let items' :=
      match setQtyFirst pid qty items with
      | some l => l
      | none => items ++ [⟨pid, prod.title, prod.price, qty, prod.image_url⟩]
    (update_one_cart s uid (fun c => { c with items := items' })
      (some ⟨uid, items', none, none⟩), .ok ())

/-- POST `/api/cart/{user_id}/remove`: no-op without a cart, else filter the
item out and write back (no upsert). -/
def remove_from_cart (s : DB) (uid pid : String) : DB × Except Err Unit :=
  match findCart s uid with
  | none => (s, .ok ())
  | some c =>
    let items := c.items.filter (fun it => it.product_id != pid)
    (update_one_cart s uid (fun c0 => { c0 with items := items }) none, .ok ())

/-- POST `/api/cart/{user_id}/apply-coupon`: 404 when no active coupon has
the code, else `update_one` (without upsert) storing the code on the cart. -/
def apply_coupon (s : DB) (uid code : String) : DB × Except Err Unit :=
  match findActiveCoupon s code with
  | none => (s, .error .notFound)
  | some _ =>
    (update_one_cart s uid (fun c => { c with coupon_code := some code }) none, .ok ())

/-- `float(cpn.get("max_discount", subtotal))`: the default only fires for
an absent key; a stored null reaches `float(None)`, a `TypeError`. -/
def maxDiscountVal : Option (Option ℚ) → ℚ → Option ℚ
  | none, dflt => some dflt
  | some none, _ => none
  | some (some m), _ => some m

/-- The discount branch of `checkout` for one coupon document: percent
coupons take `min(subtotal*value/100, cap)`, everything else (the `else`
covers `flat`) `min(value, cap)`; `none` models the `TypeError` on a null
`max_discount`. -/
def couponDiscount (cpn : CouponD) (subtotal : ℚ) : Option ℚ :=
  (maxDiscountVal cpn.max_discount subtotal).map (fun cap =>
    if cpn.discount_type == "percent" then min (subtotal * cpn.value / 100) cap
    else min cpn.value cap)

/-- Lines 160–167 of `checkout`: discount 0 without a (truthy) coupon code
or when the code no longer resolves to an active coupon, else the coupon's
discount. -/
def cartDiscount (s : DB) (cart : CartD) (subtotal : ℚ) : Option ℚ :=
  match cart.coupon_code with
  | none => some 0
  | some cc =>
    if cc == "" then some 0
    else
      match findActiveCoupon s cc with
      | none => some 0
      | some cpn => couponDiscount cpn subtotal

/-- `sum([it["price"] * it["quantity"] for it in cart.get("items", [])])`. -/
def itemsSubtotal (items : List CartItemD) : ℚ :=
  (items.map (fun it => it.price * (it.quantity : ℚ))).sum

/-- Round-half-to-even to an integer (Python `round` on an exact value). -/
def roundHalfEven (x : ℚ) : ℤ :=
  let f := ⌊x⌋
  let r := x - (f : ℚ)
  if r < 1 / 2 then f
  else if 1 / 2 < r then f + 1
  else if f % 2 = 0 then f else f + 1

/-- Python `round(x, 2)` on the exact-rational model of a float. -/
def round2 (x : ℚ) : ℚ := (roundHalfEven (x * 100) : ℚ) / 100

/-- Lines 170–174 of `checkout`: the payment block.  Note the `status` test
compares against `"ONLINE"`, not against "anything other than COD". -/
def mkPayment (payment_method : List Char) : PaymentD :=
  let u := payment_method.map Char.toUpper
  { method := if u = "COD".toList then "COD" else "ONLINE"
    provider := if u = "COD".toList then none else some "razorpay"
    status := if u = "ONLINE".toList then "pending" else "paid" }

/-- `str(ObjectId())[:8].upper()`: first 8 characters of the generated hex
id, uppercased. -/
def genTrackingCode (oid : List Char) : List Char :=
  (oid.take 8).map Char.toUpper

/-- The JSON body returned by POST `/api/checkout/{user_id}`. -/
structure CheckoutResp where
  order_id : String
  tracking_code : List Char
  payment : PaymentD
deriving DecidableEq, Repr

/-- The order document lines 176–187 of `checkout` build once validation
and pricing are done. -/
def checkoutOrder (uid : String) (address : AddressDict) (area_pincode : String)
    (payment_method : List Char) (oid : List Char) (cart : CartD) (discount : ℚ) :
    OrderD :=
  let subtotal := itemsSubtotal cart.items
  ⟨uid, cart.items, round2 subtotal, round2 discount,
    round2 (max 0 (subtotal - discount)), address, area_pincode,
    mkPayment payment_method, "placed", genTrackingCode oid⟩

/-- Lines 168–200 of `checkout`: what happens after the cart and the
discount have been resolved — persist the order, clear the cart, create
the notification, return the response body. -/
def checkoutSuccess (s : DB) (uid : String) (address : AddressDict)
    (area_pincode : String) (payment_method : List Char) (oid : List Char)
    (newOrderId : String) (cart : CartD) (discount : ℚ) :
    DB × Except Err CheckoutResp :=
  let order := checkoutOrder uid address area_pincode payment_method oid cart discount
  let s1 := { s with orders := s.orders ++ [order] }
  let s2 := update_one_cart s1 uid
    (fun c => { c with items := [], coupon_code := none }) none
  let notif : NotifD :=
    ⟨uid, "Order Placed", "Your order #" ++ newOrderId ++ " has been placed.",
      "order", false⟩
  let s3 := { s2 with notifications := s2.notifications ++ [notif] }
  (s3, .ok ⟨newOrderId, genTrackingCode oid, mkPayment payment_method⟩)

/-- POST `/api/checkout/{user_id}` (`checkout` in `src/main.py`).  `oid` is
the hex string of the `ObjectId()` generated for the tracking code and
`newOrderId` the id `create_document("order", …)` returns; both model the
store's fresh-id nondeterminism.  Errors return the store unchanged: every
raise in the source happens before the first write. -/
def checkout (s : DB) (uid : String) (address : AddressDict) (area_pincode : String)
    (payment_method : List Char) (oid : List Char) (newOrderId : String) :
    DB × Except Err CheckoutResp :=
  match findCart s uid with
  | none => (s, .error .emptyCart)
  | some cart =>
    if cart.items.isEmpty then (s, .error .emptyCart)
    else
      match cartDiscount s cart (itemsSubtotal cart.items) with
      | none => (s, .error .typeErr)
      | some discount =>
        checkoutSuccess s uid address area_pincode payment_method oid newOrderId
          cart discount

/-- GET `/api/track/{tracking_code}` (`track_order`): exact-match lookup,
404 when no order carries the code. -/
def track_order (s : DB) (tracking_code : List Char) : Except Err OrderD :=
  match s.orders.find? (fun o => o.tracking_code == tracking_code) with
  | none => .error .notFound
  | some o => .ok o

instance {ε α : Type _} [DecidableEq ε] [DecidableEq α] : DecidableEq (Except ε α) :=
  fun x y =>
    match x, y with
    | .error e, .error f =>
      if h : e = f then isTrue (by rw [h]) else isFalse (fun hh => h (by injection hh))
    | .error _, .ok _ => isFalse (fun hh => Except.noConfusion hh)
    | .ok _, .error _ => isFalse (fun hh => Except.noConfusion hh)
    | .ok a, .ok b =>
      if h : a = b then isTrue (by rw [h]) else isFalse (fun hh => h (by injection hh))

/-- The 16 characters a BSON ObjectId hex string is made of. -/
def oidAlphabet : List Char := "0123456789abcdef".toList

/-- A plausible `str(ObjectId())`: 24 lowercase hex characters. -/
def isOidHex (l : List Char) : Bool :=
  (l.length == 24) && l.all (fun c => decide (c ∈ oidAlphabet))

/-- An uppercase alphanumeric character (digit or capital letter). -/
def isUpperAlnum (c : Char) : Bool :=
  (decide ('0' ≤ c) && decide (c ≤ '9')) || (decide ('A' ≤ c) && decide (c ≤ 'Z'))

/-- Placeholder item for `List.getD` (never produced by the operations). -/
def dItem : CartItemD := ⟨"", "", 0, 0, none⟩

/-- Index of the first cart item with the given product id. -/
def firstIdx? (pid : String) : List CartItemD → Option ℕ
  | [] => none
  | it :: rest =>
    if it.product_id == pid then some 0 else (firstIdx? pid rest).map (· + 1)

/-! ### Helper lemmas about the store operations -/

theorem update_one_cart_orders (s : DB) (uid : String) (f : CartD → CartD)
    (u : Option CartD) : (update_one_cart s uid f u).orders = s.orders := by
  unfold update_one_cart
  split
  · rfl
  · split <;> rfl

theorem update_one_cart_notifications (s : DB) (uid : String) (f : CartD → CartD)
    (u : Option CartD) : (update_one_cart s uid f u).notifications = s.notifications := by
  unfold update_one_cart
  split
  · rfl
  · split <;> rfl

theorem updateCarts_none (uid : String) (f : CartD → CartD) :
    ∀ l : List CartD, l.find? (fun c => c.user_id == uid) = none →
      updateCarts uid f l = none := by
  intro l
  induction l with
  | nil => intro _; rfl
  | cons c rest ih =>
    intro h
    by_cases hc : c.user_id == uid
    · simp [List.find?, hc] at h
    · simp only [List.find?, hc] at h
      simp [updateCarts, hc, ih h]

theorem updateCarts_find (uid : String) (f : CartD → CartD)
    (hf : ∀ c, (f c).user_id = c.user_id) :
    ∀ (l : List CartD) (c : CartD),
      l.find? (fun x => x.user_id == uid) = some c →
      ∃ l', updateCarts uid f l = some l' ∧ l'.length = l.length ∧
        l'.find? (fun x => x.user_id == uid) = some (f c) := by
  intro l
  induction l with
  | nil => intro c h; simp [List.find?] at h
  | cons x rest ih =>
    intro c h
    by_cases hx : x.user_id == uid
    · simp only [List.find?, hx, Option.some.injEq] at h
      subst h
      refine ⟨f x :: rest, by simp [updateCarts, hx], by simp, ?_⟩
      have : ((f x).user_id == uid) = true := by
        rw [hf x]; exact hx
      simp [List.find?, this]
    · simp only [List.find?, hx] at h
      obtain ⟨l', h1, h2, h3⟩ := ih c h
      refine ⟨x :: l', ?_, by simp [h2], ?_⟩
      · simp [updateCarts, hx, h1]
      · simp [List.find?, hx, h3]

theorem firstIdx_setQtyFirst (pid : String) (qty : ℤ) :
    ∀ (items : List CartItemD) (i : ℕ), firstIdx? pid items = some i →
      i < items.length ∧
      setQtyFirst pid qty items =
        some (items.set i { items.getD i dItem with quantity := qty }) := by
  intro items
  induction items with
  | nil => intro i h; simp [firstIdx?] at h
  | cons it rest ih =>
    intro i h
    by_cases hit : it.product_id == pid
    · unfold firstIdx? at h
      rw [if_pos hit] at h
      injection h with h
      subst h
      refine ⟨by simp, ?_⟩
      unfold setQtyFirst
      rw [if_pos hit]
      simp
    · unfold firstIdx? at h
      rw [if_neg hit] at h
      cases hj : firstIdx? pid rest with
      | none => rw [hj] at h; simp at h
      | some j =>
        rw [hj] at h
        simp only [Option.map_some'] at h
        injection h with h
        subst h
        obtain ⟨hlt, hset⟩ := ih j hj
        refine ⟨by simp only [List.length_cons]; omega, ?_⟩
        unfold setQtyFirst
        rw [if_neg hit, hset]
        simp

theorem oidAlphabet_toUpper_all :
    oidAlphabet.all (fun c => isUpperAlnum (Char.toUpper c)) = true := by
  decide

theorem toUpper_oid_alnum (c : Char) (h : c ∈ oidAlphabet) :
    isUpperAlnum (Char.toUpper c) = true := by
  have hall := oidAlphabet_toUpper_all
  rw [List.all_eq_true] at hall
  exact hall c h

theorem mkPayment_cases (pm : List Char) :
    (pm.map Char.toUpper = "COD".toList → mkPayment pm = ⟨"COD", none, "paid"⟩) ∧
    (pm.map Char.toUpper ≠ "COD".toList →
      (mkPayment pm).method = "ONLINE" ∧ (mkPayment pm).provider = some "razorpay" ∧
      (mkPayment pm).status =
        (if pm.map Char.toUpper = "ONLINE".toList then "pending" else "paid")) := by
  constructor
  · intro h
    have hne : pm.map Char.toUpper ≠ "ONLINE".toList := by
      rw [h]; decide
    dsimp only [mkPayment]
    rw [if_pos h, if_pos h, if_neg hne]
  · intro h
    refine ⟨?_, ?_, ?_⟩
    · dsimp only [mkPayment]; rw [if_neg h]
    · dsimp only [mkPayment]; rw [if_neg h]
    · rfl

theorem checkout_ok_inv (s : DB) (uid : String) (a : AddressDict) (pin : String)
    (pm oid : List Char) (nid : String) (r : CheckoutResp)
    (h : (checkout s uid a pin pm oid nid).2 = Except.ok r) :
    ∃ cart discount,
      findCart s uid = some cart ∧ cart.items.isEmpty = false ∧
      cartDiscount s cart (itemsSubtotal cart.items) = some discount ∧
      checkout s uid a pin pm oid nid =
        checkoutSuccess s uid a pin pm oid nid cart discount := by
  cases hfc : findCart s uid with
  | none =>
    have he : checkout s uid a pin pm oid nid = (s, .error .emptyCart) := by
      unfold checkout; rw [hfc]
    rw [he] at h
    simp at h
  | some cart =>
    by_cases hemp : cart.items.isEmpty
    · have he : checkout s uid a pin pm oid nid = (s, .error .emptyCart) := by
        unfold checkout; rw [hfc]; simp [hemp]
      rw [he] at h
      simp at h
    · cases hd : cartDiscount s cart (itemsSubtotal cart.items) with
      | none =>
        have he : checkout s uid a pin pm oid nid = (s, .error .typeErr) := by
          unfold checkout; rw [hfc]; simp [hemp, hd]
        rw [he] at h
        simp at h
      | some d =>
        refine ⟨cart, d, rfl, by simpa using hemp, hd, ?_⟩
        unfold checkout; rw [hfc]; simp [hemp, hd]

theorem update_one_cart_carts_of_some (s : DB) (uid : String) (f : CartD → CartD)
    (u : Option CartD) (l' : List CartD) (h : updateCarts uid f s.carts = some l') :
    (update_one_cart s uid f u).carts = l' := by
  unfold update_one_cart
  rw [h]

theorem update_one_cart_of_none (s : DB) (uid : String) (f : CartD → CartD)
    (h : updateCarts uid f s.carts = none) :
    update_one_cart s uid f none = s := by
  unfold update_one_cart
  rw [h]

theorem checkoutSuccess_resp (s : DB) (uid : String) (a : AddressDict) (pin : String)
    (pm oid : List Char) (nid : String) (cart : CartD) (d : ℚ) :
    (checkoutSuccess s uid a pin pm oid nid cart d).2 =
      Except.ok ⟨nid, genTrackingCode oid, mkPayment pm⟩ := rfl

theorem checkoutSuccess_orders (s : DB) (uid : String) (a : AddressDict) (pin : String)
    (pm oid : List Char) (nid : String) (cart : CartD) (d : ℚ) :
    (checkoutSuccess s uid a pin pm oid nid cart d).1.orders =
      s.orders ++ [checkoutOrder uid a pin pm oid cart d] := by
  unfold checkoutSuccess
  rw [show ∀ s2 : DB, ∀ n : NotifD, ({ s2 with notifications := s2.notifications ++ [n] } : DB).orders = s2.orders from fun _ _ => rfl]
  rw [update_one_cart_orders]

theorem checkoutSuccess_carts (s : DB) (uid : String) (a : AddressDict) (pin : String)
    (pm oid : List Char) (nid : String) (cart : CartD) (d : ℚ) :
    (checkoutSuccess s uid a pin pm oid nid cart d).1.carts =
      (update_one_cart { s with orders := s.orders ++ [checkoutOrder uid a pin pm oid cart d] }
        uid (fun c => { c with items := [], coupon_code := none }) none).carts := rfl

theorem checkout_products_irrel (s : DB) (ps : List ProductD) (uid : String)
    (a : AddressDict) (pin : String) (pm oid : List Char) (nid : String) :
    (checkout { s with products := ps } uid a pin pm oid nid).2 =
      (checkout s uid a pin pm oid nid).2 ∧
    (checkout { s with products := ps } uid a pin pm oid nid).1.orders =
      (checkout s uid a pin pm oid nid).1.orders := by
  have hfc : findCart { s with products := ps } uid = findCart s uid := rfl
  have hcd : ∀ cart st, cartDiscount { s with products := ps } cart st =
      cartDiscount s cart st := fun _ _ => rfl
  cases h : findCart s uid with
  | none => constructor <;> (unfold checkout; rw [hfc, h])
  | some cart =>
    by_cases hemp : cart.items.isEmpty
    · constructor <;> (unfold checkout; rw [hfc, h]; simp [hemp])
    · cases hd : cartDiscount s cart (itemsSubtotal cart.items) with
      | none => constructor <;> (unfold checkout; rw [hfc, h]; simp [hemp, hcd, hd])
      | some d =>
        constructor
        · unfold checkout
          rw [hfc, h]
          simp only [hemp, hcd, hd, Bool.false_eq_true, if_false]
          rw [checkoutSuccess_resp, checkoutSuccess_resp]
        · unfold checkout
          rw [hfc, h]
          simp only [hemp, hcd, hd, Bool.false_eq_true, if_false]
          rw [checkoutSuccess_orders, checkoutSuccess_orders]

/-! ### Concrete fixtures -/

/-- A catalog with one product and one single-item cart for user "u1". -/
def fixDB : DB :=
  ⟨[⟨"p1", "Chicken Curry Cut", 100, none⟩],
   [⟨"u1", [⟨"p1", "Chicken Curry Cut", 100, 2, none⟩], none, none⟩], [], [], []⟩

/-- A store with nothing in it. -/
def emptyFixDB : DB := ⟨[], [], [], [], []⟩

/-- A 24-character lowercase-hex ObjectId string. -/
def oidFix : List Char := "0123456789abcdefdeadbeef".toList

/-- A cart worth 250 carrying coupon code "SAVE10" (the spec's scenario). -/
def cart250 : CartD :=
  ⟨"u1", [⟨"p1", "t1", 100, 2, none⟩, ⟨"p2", "t2", 50, 1, none⟩], none, some "SAVE10"⟩

/-- "SAVE10" with `max_discount` stored as null (as `schemas.Coupon` stores
an omitted `max_discount`). -/
def dbNullMax : DB :=
  ⟨[], [cart250], [⟨"SAVE10", "percent", 10, 0, some none, true⟩], [], []⟩

/-- "SAVE10" with the `max_discount` key absent from the document. -/
def dbAbsentMax : DB :=
  ⟨[], [cart250], [⟨"SAVE10", "percent", 10, 0, none, true⟩], [], []⟩

/-- Subtotal 30 with a flat-50 coupon capped at 40. -/
def dbFlat : DB :=
  ⟨[], [⟨"u1", [⟨"p1", "t", 30, 1, none⟩], none, some "FLAT50"⟩],
   [⟨"FLAT50", "flat", 50, 0, some (some 40), true⟩], [], []⟩

/-- An active coupon but no cart documents at all. -/
def dbNoCart : DB :=
  ⟨[], [], [⟨"SAVE10", "percent", 10, 0, none, true⟩], [], []⟩

/-- A one-product catalog with no carts. -/
def dbCatalog : DB := ⟨[⟨"p1", "Chicken", 100, some "img"⟩], [], [], [], []⟩

/-- `dbCatalog` after `add_to_cart` with quantity 3. -/
def dbAfterAdd3 : DB := (add_to_cart dbCatalog "u1" "p1" 3).1

/-! ### The claims -/

/-- C5: checkout on an absent or empty cart fails with `EmptyCartError`
(HTTP 400) and leaves the whole store untouched — no order document is
created. -/
theorem checkout_empty_cart_error (s : DB) (uid : String) (a : AddressDict)
    (pin : String) (pm oid : List Char) (nid : String)
    (h : findCart s uid = none ∨ ∃ c, findCart s uid = some c ∧ c.items = []) :
    checkout s uid a pin pm oid nid = (s, Except.error Err.emptyCart) := by
  rcases h with h | ⟨c, hc, hi⟩
  · unfold checkout; rw [h]
  · unfold checkout; rw [hc]; simp [hi]

/-- Closed instance of C5 at a store with no cart document. -/
theorem checkout_empty_cart_error_witness :
    checkout emptyFixDB "u1" [] "500001" ("cod".toList) oidFix "ord1" =
      (emptyFixDB, Except.error Err.emptyCart) :=
  checkout_empty_cart_error emptyFixDB "u1" [] "500001" ("cod".toList) oidFix "ord1"
    (Or.inl (by decide))

/-- C1 (amended): on every successful checkout the returned payment block
equals the persisted one; a payment method equal to "COD" case-insensitively
yields `{method: COD, provider: null, status: paid}`; any other method
yields method ONLINE and provider "razorpay", but its status is "pending"
exactly when the method equals "ONLINE" case-insensitively and "paid"
otherwise (the source tests `payment_method.upper() == "ONLINE"`, not
"anything other than COD"). -/
theorem checkout_payment_block (s : DB) (uid : String) (a : AddressDict)
    (pin : String) (pm oid : List Char) (nid : String) (r : CheckoutResp)
    (h : (checkout s uid a pin pm oid nid).2 = Except.ok r) :
    (∃ o, (checkout s uid a pin pm oid nid).1.orders = s.orders ++ [o] ∧
      o.payment = r.payment) ∧
    (pm.map Char.toUpper = "COD".toList →
      r.payment = ⟨"COD", none, "paid"⟩) ∧
    (pm.map Char.toUpper ≠ "COD".toList →
      r.payment.method = "ONLINE" ∧ r.payment.provider = some "razorpay" ∧
      r.payment.status =
        (if pm.map Char.toUpper = "ONLINE".toList then "pending" else "paid")) := by
  obtain ⟨cart, d, hfc, hemp, hd, heq⟩ :=
    checkout_ok_inv s uid a pin pm oid nid r h
  rw [heq] at h
  rw [checkoutSuccess_resp] at h
  injection h with h
  subst h
  refine ⟨⟨checkoutOrder uid a pin pm oid cart d, ?_, rfl⟩, ?_, ?_⟩
  · rw [heq, checkoutSuccess_orders]
  · intro hcod
    exact (mkPayment_cases pm).1 hcod
  · intro hncod
    exact (mkPayment_cases pm).2 hncod

/-- Closed instance of C1 at the one-item fixture with payment method
"cod". -/
theorem checkout_payment_block_witness :
    (∃ o, (checkout fixDB "u1" [] "500001" ("cod".toList) oidFix "ord1").1.orders =
        fixDB.orders ++ [o] ∧
      o.payment = (⟨"ord1", "01234567".toList,
        ⟨"COD", none, "paid"⟩⟩ : CheckoutResp).payment) ∧
    ("cod".toList.map Char.toUpper = "COD".toList →
      (⟨"ord1", "01234567".toList, ⟨"COD", none, "paid"⟩⟩ : CheckoutResp).payment =
        ⟨"COD", none, "paid"⟩) ∧
    ("cod".toList.map Char.toUpper ≠ "COD".toList →
      (⟨"ord1", "01234567".toList,
        ⟨"COD", none, "paid"⟩⟩ : CheckoutResp).payment.method = "ONLINE" ∧
      (⟨"ord1", "01234567".toList,
        ⟨"COD", none, "paid"⟩⟩ : CheckoutResp).payment.provider = some "razorpay" ∧
      (⟨"ord1", "01234567".toList,
        ⟨"COD", none, "paid"⟩⟩ : CheckoutResp).payment.status =
        (if "cod".toList.map Char.toUpper = "ONLINE".toList
         then "pending" else "paid")) :=
  checkout_payment_block fixDB "u1" [] "500001" ("cod".toList) oidFix "ord1"
    ⟨"ord1", "01234567".toList, ⟨"COD", none, "paid"⟩⟩ (by decide)

/-- C1 counterexample: payment_method "razorpay" is neither "COD" nor
"ONLINE" case-insensitively, so the code returns `{method: ONLINE,
provider: razorpay, status: paid}` — not the status "pending" the claim
requires for every non-COD method. -/
theorem checkout_payment_razorpay_paid :
    (checkout fixDB "u1" [] "500001" ("razorpay".toList) oidFix "ord1").2 =
      Except.ok ⟨"ord1", "01234567".toList, ⟨"ONLINE", some "razorpay", "paid"⟩⟩ ∧
    ("paid" : String) ≠ "pending" :=
  ⟨by decide, by decide⟩

/-- C2: the claim's "stored as null" case is a crash, not a subtotal
ceiling.  An active percent coupon whose `max_discount` is stored as null
(the shape `schemas.Coupon` persists when `max_discount` is omitted) makes
`float(cpn.get("max_discount", subtotal))` evaluate `float(None)`:
checkout dies with a `TypeError` and writes nothing.  Only when the key is
absent from the document does the subtotal become the ceiling
(here `discount = min(250*10/100, 250) = 25`). -/
theorem checkout_null_max_discount_crash :
    checkout dbNullMax "u1" [] "500001" ("cod".toList) oidFix "ord1" =
      (dbNullMax, Except.error Err.typeErr) ∧
    (checkout dbAbsentMax "u1" [] "500001" ("cod".toList) oidFix "ord1").1.orders.map
      (fun o => (o.discount_amount, o.final_amount)) = [(25, 225)] ∧
    (25 : ℚ) = min (250 * 10 / 100) 250 := by
  refine ⟨by decide, ?_, by norm_num⟩
  have hst : itemsSubtotal cart250.items = 250 := by
    norm_num [itemsSubtotal, cart250]
  have hd : cartDiscount dbAbsentMax cart250 (itemsSubtotal cart250.items) =
      some 25 := by
    rw [hst]
    simp only [cartDiscount, couponDiscount, maxDiscountVal, findActiveCoupon,
      dbAbsentMax, cart250, List.find?]
    norm_num
    decide
  have hfc : findCart dbAbsentMax "u1" = some cart250 := by decide
  have hemp : cart250.items.isEmpty = false := by decide
  have heq : checkout dbAbsentMax "u1" [] "500001" ("cod".toList) oidFix "ord1" =
      checkoutSuccess dbAbsentMax "u1" [] "500001" ("cod".toList) oidFix "ord1"
        cart250 25 := by
    unfold checkout
    rw [hfc]
    simp [hemp, hd]
  rw [heq, checkoutSuccess_orders]
  have ho : dbAbsentMax.orders = [] := rfl
  rw [ho]
  simp only [List.nil_append, List.map_cons, List.map_nil, checkoutOrder, hst]
  norm_num [round2, roundHalfEven, Int.fract]

/-- C3 (amended): for a coupon with nonnegative value, nonnegative subtotal
and a `max_discount` that is absent or a nonnegative number, the evaluated
discount `d` satisfies `0 ≤ d`; `d ≤ subtotal` holds when `max_discount` is
absent, but when `max_discount = m` is present the bound is only
`d ≤ max subtotal m` — a flat coupon's discount can exceed the subtotal up
to `max_discount`. -/
theorem couponDiscount_bounds (cpn : CouponD) (st d : ℚ)
    (hst : 0 ≤ st) (hv : 0 ≤ cpn.value)
    (hm : ∀ m, cpn.max_discount = some (some m) → 0 ≤ m)
    (hd : couponDiscount cpn st = some d) :
    0 ≤ d ∧ (cpn.max_discount = none → d ≤ st) ∧
    (∀ m, cpn.max_discount = some (some m) → d ≤ max st m) := by
  have hpct : 0 ≤ st * cpn.value / 100 := by
    apply div_nonneg (mul_nonneg hst hv)
    norm_num
  cases hmx : cpn.max_discount with
  | none =>
    have hcap : maxDiscountVal cpn.max_discount st = some st := by rw [hmx]; rfl
    unfold couponDiscount at hd
    rw [hcap] at hd
    simp only [Option.map_some'] at hd
    by_cases hp : cpn.discount_type == "percent"
    · rw [if_pos hp] at hd
      injection hd with hd
      subst hd
      refine ⟨le_min hpct hst, fun _ => min_le_right _ _, ?_⟩
      intro m hm'
      simp at hm'
    · rw [if_neg hp] at hd
      injection hd with hd
      subst hd
      refine ⟨le_min hv hst, fun _ => min_le_right _ _, ?_⟩
      intro m hm'
      simp at hm'
  | some mopt =>
    cases mopt with
    | none =>
      have hcap : maxDiscountVal cpn.max_discount st = none := by rw [hmx]; rfl
      unfold couponDiscount at hd
      rw [hcap] at hd
      simp at hd
    | some m =>
      have hm0 : 0 ≤ m := hm m hmx
      have hcap : maxDiscountVal cpn.max_discount st = some m := by rw [hmx]; rfl
      unfold couponDiscount at hd
      rw [hcap] at hd
      simp only [Option.map_some'] at hd
      have hbound : ∀ x : ℚ, 0 ≤ x → d = min x m →
          0 ≤ d ∧ ((some (some m) : Option (Option ℚ)) = none → d ≤ st) ∧
          (∀ m' : ℚ, (some (some m) : Option (Option ℚ)) = some (some m') →
            d ≤ max st m') := by
        intro x hx hdx
        subst hdx
        refine ⟨le_min hx hm0, ?_, ?_⟩
        · intro h0
          simp at h0
        · intro m' hm'
          injection hm' with hm'
          injection hm' with hm'
          subst hm'
          exact le_trans (min_le_right _ _) (le_max_right _ _)
      by_cases hp : cpn.discount_type == "percent"
      · rw [if_pos hp] at hd
        injection hd with hd
        exact hbound _ hpct hd.symm
      · rw [if_neg hp] at hd
        injection hd with hd
        exact hbound _ hv hd.symm

/-- Closed instance of C3 at the spec's scenario: percent 10, capped at 20,
subtotal 250, discount 20. -/
theorem couponDiscount_bounds_witness :
    0 ≤ (20 : ℚ) ∧
    ((⟨"SAVE10", "percent", 10, 0, some (some 20), true⟩ : CouponD).max_discount =
        none → (20 : ℚ) ≤ 250) ∧
    (∀ m, (⟨"SAVE10", "percent", 10, 0, some (some 20), true⟩ : CouponD).max_discount =
        some (some m) → (20 : ℚ) ≤ max 250 m) :=
  couponDiscount_bounds ⟨"SAVE10", "percent", 10, 0, some (some 20), true⟩ 250 20
    (by norm_num) (by norm_num)
    (by intro m hm; injection hm with hm; injection hm with hm; subst hm; norm_num)
    (by norm_num [couponDiscount, maxDiscountVal])

/-- C3 counterexample: subtotal 30 with an active flat coupon of value 50
capped at `max_discount = 40` gives `discount_amount = min(50, 40) = 40`,
which exceeds the subtotal. -/
theorem checkout_discount_exceeds_subtotal :
    (checkout dbFlat "u1" [] "500001" ("cod".toList) oidFix "ord1").1.orders.map
      (fun o => (o.discount_amount, o.total_amount)) = [(40, 30)] ∧
    ¬ ((40 : ℚ) ≤ 30) := by
  constructor
  · have hst : itemsSubtotal (CartD.items ⟨"u1", [⟨"p1", "t", 30, 1, none⟩], none,
        some "FLAT50"⟩) = 30 := by
      norm_num [itemsSubtotal]
    have hd : cartDiscount dbFlat ⟨"u1", [⟨"p1", "t", 30, 1, none⟩], none,
        some "FLAT50"⟩ (itemsSubtotal (CartD.items ⟨"u1", [⟨"p1", "t", 30, 1, none⟩],
          none, some "FLAT50"⟩)) = some 40 := by
      rw [hst]
      simp only [cartDiscount, couponDiscount, maxDiscountVal, findActiveCoupon,
        dbFlat, List.find?]
      norm_num
      decide
    have hfc : findCart dbFlat "u1" = some ⟨"u1", [⟨"p1", "t", 30, 1, none⟩], none,
        some "FLAT50"⟩ := by decide
    have heq : checkout dbFlat "u1" [] "500001" ("cod".toList) oidFix "ord1" =
        checkoutSuccess dbFlat "u1" [] "500001" ("cod".toList) oidFix "ord1"
          ⟨"u1", [⟨"p1", "t", 30, 1, none⟩], none, some "FLAT50"⟩ 40 := by
      unfold checkout
      rw [hfc]
      simp [hd]
    rw [heq, checkoutSuccess_orders]
    have ho : dbFlat.orders = [] := rfl
    rw [ho]
    simp only [List.nil_append, List.map_cons, List.map_nil, checkoutOrder, hst]
    norm_num [round2, roundHalfEven, Int.fract]
  · norm_num

/-- C4: every successful checkout persists exactly one new order whose
items are the cart's stored snapshot, whose `total_amount` is
`round2(Σ price·quantity)` over those snapshot items, whose
`discount_amount` is `round2(discount)` and whose `final_amount` is
`round2(max 0 (subtotal - discount))`; the result does not depend on the
catalog (`products`) collection at all. -/
theorem checkout_amounts (s : DB) (uid : String) (a : AddressDict) (pin : String)
    (pm oid : List Char) (nid : String) (r : CheckoutResp)
    (h : (checkout s uid a pin pm oid nid).2 = Except.ok r) :
    ∃ cart d o,
      findCart s uid = some cart ∧
      cartDiscount s cart (itemsSubtotal cart.items) = some d ∧
      (checkout s uid a pin pm oid nid).1.orders = s.orders ++ [o] ∧
      o.items = cart.items ∧
      o.total_amount = round2 (itemsSubtotal cart.items) ∧
      o.discount_amount = round2 d ∧
      o.final_amount = round2 (max 0 (itemsSubtotal cart.items - d)) ∧
      (∀ ps : List ProductD,
        (checkout { s with products := ps } uid a pin pm oid nid).2 =
          (checkout s uid a pin pm oid nid).2 ∧
        (checkout { s with products := ps } uid a pin pm oid nid).1.orders =
          (checkout s uid a pin pm oid nid).1.orders) := by
  obtain ⟨cart, d, hfc, hemp, hd, heq⟩ := checkout_ok_inv s uid a pin pm oid nid r h
  refine ⟨cart, d, checkoutOrder uid a pin pm oid cart d, hfc, hd, ?_, rfl, rfl, rfl,
    rfl, fun ps => checkout_products_irrel s ps uid a pin pm oid nid⟩
  rw [heq, checkoutSuccess_orders]

/-- Closed instance of C4 at the one-item fixture (subtotal 200, no
coupon). -/
theorem checkout_amounts_witness :
    ∃ cart d o,
      findCart fixDB "u1" = some cart ∧
      cartDiscount fixDB cart (itemsSubtotal cart.items) = some d ∧
      (checkout fixDB "u1" [] "500001" ("cod".toList) oidFix "ord1").1.orders =
        fixDB.orders ++ [o] ∧
      o.items = cart.items ∧
      o.total_amount = round2 (itemsSubtotal cart.items) ∧
      o.discount_amount = round2 d ∧
      o.final_amount = round2 (max 0 (itemsSubtotal cart.items - d)) ∧
      (∀ ps : List ProductD,
        (checkout { fixDB with products := ps } "u1" [] "500001" ("cod".toList)
            oidFix "ord1").2 =
          (checkout fixDB "u1" [] "500001" ("cod".toList) oidFix "ord1").2 ∧
        (checkout { fixDB with products := ps } "u1" [] "500001" ("cod".toList)
            oidFix "ord1").1.orders =
          (checkout fixDB "u1" [] "500001" ("cod".toList) oidFix "ord1").1.orders) :=
  checkout_amounts fixDB "u1" [] "500001" ("cod".toList) oidFix "ord1"
    ⟨"ord1", "01234567".toList, ⟨"COD", none, "paid"⟩⟩ (by decide)

/-- C6: after every successful checkout the user still has a cart document
(the cart collection keeps its size), and that cart has been reset to an
empty items list and a null coupon_code. -/
theorem checkout_clears_cart (s : DB) (uid : String) (a : AddressDict) (pin : String)
    (pm oid : List Char) (nid : String) (r : CheckoutResp)
    (h : (checkout s uid a pin pm oid nid).2 = Except.ok r) :
    (checkout s uid a pin pm oid nid).1.carts.length = s.carts.length ∧
    ∃ c', findCart (checkout s uid a pin pm oid nid).1 uid = some c' ∧
      c'.items = [] ∧ c'.coupon_code = none := by
  obtain ⟨cart, d, hfc, hemp, hd, heq⟩ := checkout_ok_inv s uid a pin pm oid nid r h
  have hfind : s.carts.find? (fun x => x.user_id == uid) = some cart := hfc
  obtain ⟨l', h1, h2, h3⟩ := updateCarts_find uid
    (fun c => { c with items := [], coupon_code := none }) (fun _ => rfl)
    s.carts cart hfind
  have hcs : (checkout s uid a pin pm oid nid).1.carts = l' := by
    rw [heq, checkoutSuccess_carts]
    exact update_one_cart_carts_of_some _ uid _ none l' h1
  constructor
  · rw [hcs, h2]
  · refine ⟨{ cart with items := [], coupon_code := none }, ?_, rfl, rfl⟩
    unfold findCart
    rw [hcs]
    exact h3

/-- Closed instance of C6 at the one-item fixture. -/
theorem checkout_clears_cart_witness :
    (checkout fixDB "u1" [] "500001" ("cod".toList) oidFix "ord1").1.carts.length =
      fixDB.carts.length ∧
    ∃ c', findCart (checkout fixDB "u1" [] "500001" ("cod".toList) oidFix
        "ord1").1 "u1" = some c' ∧
      c'.items = [] ∧ c'.coupon_code = none :=
  checkout_clears_cart fixDB "u1" [] "500001" ("cod".toList) oidFix "ord1"
    ⟨"ord1", "01234567".toList, ⟨"COD", none, "paid"⟩⟩ (by decide)

/-- C7: the tracking code generated by a successful checkout is exactly 8
uppercase-alphanumeric characters (the first 8 hex characters of the fresh
ObjectId, uppercased), and `track` round-trips: as long as no earlier order
already carries the same code (the source enforces no uniqueness, only
probabilistic freshness of the generator), looking the code up returns the
newly created order; and `track` fails with `NotFoundError` on any store in
which no order carries the code. -/
theorem tracking_code_roundtrip (s : DB) (uid : String) (a : AddressDict)
    (pin : String) (pm oid : List Char) (nid : String) (r : CheckoutResp)
    (h : (checkout s uid a pin pm oid nid).2 = Except.ok r)
    (hhex : isOidHex oid = true)
    (hfresh : ∀ o ∈ s.orders, o.tracking_code ≠ genTrackingCode oid) :
    ∃ o, (checkout s uid a pin pm oid nid).1.orders = s.orders ++ [o] ∧
      o.tracking_code = r.tracking_code ∧
      r.tracking_code.length = 8 ∧
      (∀ c ∈ r.tracking_code, isUpperAlnum c = true) ∧
      track_order (checkout s uid a pin pm oid nid).1 r.tracking_code =
        Except.ok o ∧
      (∀ (s2 : DB) (code : List Char),
        (∀ o2 ∈ s2.orders, o2.tracking_code ≠ code) →
          track_order s2 code = Except.error Err.notFound) := by
  obtain ⟨cart, d, hfc, hemp, hd, heq⟩ := checkout_ok_inv s uid a pin pm oid nid r h
  rw [heq, checkoutSuccess_resp] at h
  injection h with h
  subst h
  have hx := hhex
  unfold isOidHex at hx
  rw [Bool.and_eq_true] at hx
  have h24 : oid.length = 24 := by simpa using hx.1
  have hmem : ∀ c ∈ oid, c ∈ oidAlphabet := by
    intro c hc
    have hall := hx.2
    rw [List.all_eq_true] at hall
    exact of_decide_eq_true (hall c hc)
  have tnf : ∀ (s2 : DB) (code : List Char),
      (∀ o2 ∈ s2.orders, o2.tracking_code ≠ code) →
        track_order s2 code = Except.error Err.notFound := by
    intro s2 code hnone
    unfold track_order
    rw [List.find?_eq_none.mpr (fun x hx2 hb => hnone x hx2 (eq_of_beq hb))]
  have horders : (checkout s uid a pin pm oid nid).1.orders =
      s.orders ++ [checkoutOrder uid a pin pm oid cart d] := by
    rw [heq, checkoutSuccess_orders]
  refine ⟨checkoutOrder uid a pin pm oid cart d, horders, rfl, ?_, ?_, ?_, tnf⟩
  · show (genTrackingCode oid).length = 8
    unfold genTrackingCode
    rw [List.length_map, List.length_take, h24]
    decide
  · intro c hc
    obtain ⟨c0, hc0, rfl⟩ := List.mem_map.mp hc
    exact toUpper_oid_alnum c0 (hmem c0 (List.mem_of_mem_take hc0))
  · show track_order (checkout s uid a pin pm oid nid).1 (genTrackingCode oid) =
      Except.ok (checkoutOrder uid a pin pm oid cart d)
    have hbeq : ((checkoutOrder uid a pin pm oid cart d).tracking_code ==
        genTrackingCode oid) = true := by
      simp [checkoutOrder]
    have hone : List.find? (fun o2 => o2.tracking_code == genTrackingCode oid)
        [checkoutOrder uid a pin pm oid cart d] =
        some (checkoutOrder uid a pin pm oid cart d) := by
      simp [List.find?, hbeq]
    have hl : List.find? (fun o2 => o2.tracking_code == genTrackingCode oid)
        s.orders = none :=
      List.find?_eq_none.mpr (fun x hx2 hb => hfresh x hx2 (eq_of_beq hb))
    unfold track_order
    rw [horders, List.find?_append, hl, hone]
    rfl

/-- Closed instance of C7 at the one-item fixture with a fresh hex id. -/
theorem tracking_code_roundtrip_witness :
    ∃ o, (checkout fixDB "u1" [] "500001" ("cod".toList) oidFix "ord1").1.orders =
        fixDB.orders ++ [o] ∧
      o.tracking_code = (⟨"ord1", "01234567".toList,
        ⟨"COD", none, "paid"⟩⟩ : CheckoutResp).tracking_code ∧
      (⟨"ord1", "01234567".toList,
        ⟨"COD", none, "paid"⟩⟩ : CheckoutResp).tracking_code.length = 8 ∧
      (∀ c ∈ (⟨"ord1", "01234567".toList,
        ⟨"COD", none, "paid"⟩⟩ : CheckoutResp).tracking_code,
        isUpperAlnum c = true) ∧
      track_order (checkout fixDB "u1" [] "500001" ("cod".toList) oidFix "ord1").1
        (⟨"ord1", "01234567".toList,
          ⟨"COD", none, "paid"⟩⟩ : CheckoutResp).tracking_code = Except.ok o ∧
      (∀ (s2 : DB) (code : List Char),
        (∀ o2 ∈ s2.orders, o2.tracking_code ≠ code) →
          track_order s2 code = Except.error Err.notFound) :=
  tracking_code_roundtrip fixDB "u1" [] "500001" ("cod".toList) oidFix "ord1"
    ⟨"ord1", "01234567".toList, ⟨"COD", none, "paid"⟩⟩
    (by decide) (by decide) (by simp [fixDB])

/-- C8 (amended): `apply_coupon` fails with `NotFoundError` exactly when no
active coupon matches the code, and then changes nothing.  When an active
coupon matches, the call reports success and stores the code on the user's
cart — but only if a cart document already exists: the `update_one` carries
no upsert, so for a user with no cart the call still returns ok while
writing nothing (no cart is created and the code is stored nowhere). -/
theorem apply_coupon_rules (s : DB) (uid code : String) :
    ((apply_coupon s uid code).2 = Except.error Err.notFound ↔
      findActiveCoupon s code = none) ∧
    (findActiveCoupon s code = none →
      apply_coupon s uid code = (s, Except.error Err.notFound)) ∧
    (findActiveCoupon s code ≠ none →
      (apply_coupon s uid code).2 = Except.ok () ∧
      (findCart s uid = none → (apply_coupon s uid code).1 = s) ∧
      (∀ c, findCart s uid = some c →
        findCart (apply_coupon s uid code).1 uid =
          some { c with coupon_code := some code })) := by
  by_cases hn : findActiveCoupon s code = none
  · have he : apply_coupon s uid code = (s, Except.error Err.notFound) := by
      unfold apply_coupon
      rw [hn]
    exact ⟨by rw [he]; simp [hn], fun _ => he, fun hc => absurd hn hc⟩
  · obtain ⟨cpn, hcpn⟩ := Option.ne_none_iff_exists'.mp hn
    have he : apply_coupon s uid code =
        (update_one_cart s uid (fun c => { c with coupon_code := some code }) none,
          Except.ok ()) := by
      unfold apply_coupon
      rw [hcpn]
    refine ⟨?_, fun h0 => absurd h0 hn, fun _ => ⟨by rw [he], ?_, ?_⟩⟩
    · rw [he]
      simp [hn]
    · intro hnc
      rw [he]
      exact update_one_cart_of_none s uid _ (updateCarts_none uid _ s.carts hnc)
    · intro c hc
      rw [he]
      obtain ⟨l', h1, _h2, h3⟩ := updateCarts_find uid
        (fun c0 => { c0 with coupon_code := some code }) (fun _ => rfl)
        s.carts c hc
      unfold findCart
      rw [update_one_cart_carts_of_some s uid _ none l' h1]
      exact h3

/-- C8 counterexample: with an active coupon "SAVE10" and no cart document
for the user, `apply_coupon` reports success, yet afterwards the store is
unchanged — the user still has no cart and the code is stored nowhere
(`update_one` without upsert matches nothing). -/
theorem apply_coupon_no_cart_noop :
    apply_coupon dbNoCart "u1" "SAVE10" = (dbNoCart, Except.ok ()) ∧
    findCart dbNoCart "u1" = none ∧
    (apply_coupon dbNoCart "u1" "SAVE10").1.carts = [] :=
  ⟨by decide, by decide, by decide⟩

/-- C9: when the cart already holds an item for the product (at first index
`i`), `add_to_cart` succeeds and replaces that item's quantity with the
given value — keeping the snapshotted title/price/image, every other item,
and the cart's other fields unchanged (set-quantity, not increment). -/
theorem add_to_cart_replaces_quantity (s : DB) (uid pid : String) (qty : ℤ)
    (prod : ProductD) (c : CartD) (i : ℕ)
    (hp : findProduct s pid = some prod)
    (hc : findCart s uid = some c)
    (hi : firstIdx? pid c.items = some i) :
    (add_to_cart s uid pid qty).2 = Except.ok () ∧
    ∃ c', findCart (add_to_cart s uid pid qty).1 uid = some c' ∧
      c'.user_id = c.user_id ∧ c'.area_pincode = c.area_pincode ∧
      c'.coupon_code = c.coupon_code ∧
      c'.items = c.items.set i { c.items.getD i dItem with quantity := qty } := by
  obtain ⟨hlt, hset⟩ := firstIdx_setQtyFirst pid qty c.items i hi
  have he : add_to_cart s uid pid qty =
      (update_one_cart s uid
        (fun c0 => { c0 with
          items := c.items.set i { c.items.getD i dItem with quantity := qty } })
        (some ⟨uid, c.items.set i { c.items.getD i dItem with quantity := qty },
          none, none⟩), Except.ok ()) := by
    unfold add_to_cart
    simp only [hp, hc, hset]
  refine ⟨by rw [he], ?_⟩
  obtain ⟨l', h1, _h2, h3⟩ := updateCarts_find uid
    (fun c0 => { c0 with
      items := c.items.set i { c.items.getD i dItem with quantity := qty } })
    (fun _ => rfl) s.carts c hc
  refine ⟨{ c with
      items := c.items.set i { c.items.getD i dItem with quantity := qty } },
    ?_, rfl, rfl, rfl, rfl⟩
  rw [he]
  unfold findCart
  rw [update_one_cart_carts_of_some s uid _ _ l' h1]
  exact h3

/-- Closed instance of C9 realising the spec's scenario: after adding
product "p1" with quantity 3, adding it again with quantity 5 leaves the
cart with exactly one item for "p1", at quantity 5 (and the stored
snapshot price/title unchanged). -/
theorem add_to_cart_replaces_quantity_witness :
    (add_to_cart dbAfterAdd3 "u1" "p1" 5).2 = Except.ok () ∧
    ∃ c', findCart (add_to_cart dbAfterAdd3 "u1" "p1" 5).1 "u1" = some c' ∧
      c'.user_id = (⟨"u1", [⟨"p1", "Chicken", 100, 3, some "img"⟩], none,
        none⟩ : CartD).user_id ∧
      c'.area_pincode = (⟨"u1", [⟨"p1", "Chicken", 100, 3, some "img"⟩], none,
        none⟩ : CartD).area_pincode ∧
      c'.coupon_code = (⟨"u1", [⟨"p1", "Chicken", 100, 3, some "img"⟩], none,
        none⟩ : CartD).coupon_code ∧
      c'.items = (⟨"u1", [⟨"p1", "Chicken", 100, 3, some "img"⟩], none,
        none⟩ : CartD).items.set 0
        { (⟨"u1", [⟨"p1", "Chicken", 100, 3, some "img"⟩], none,
            none⟩ : CartD).items.getD 0 dItem with quantity := 5 } :=
  add_to_cart_replaces_quantity dbAfterAdd3 "u1" "p1" 5
    ⟨"p1", "Chicken", 100, some "img"⟩
    ⟨"u1", [⟨"p1", "Chicken", 100, 3, some "img"⟩], none, none⟩ 0
    (by decide) (by decide) (by decide)

/-- C10: the quantity-≥-1 invariant does not hold on the code.  The `add`
endpoint's `CartUpdate` model carries no lower bound and `add_to_cart`
never validates the quantity (the `CartItem` schema's `ge=1` is bypassed —
the endpoint builds raw dicts), so adding an existing catalog product with
quantity 0 stores a cart item whose quantity is 0. -/
theorem add_to_cart_zero_quantity :
    ((findCart (add_to_cart dbCatalog "u1" "p1" 0).1 "u1").map
      (fun c => c.items.map (fun it => it.quantity))) = some [0] ∧
    ¬ (1 ≤ (0 : ℤ)) :=
  ⟨by decide, by decide⟩
